import Mathlib

/-!
Shallow embedding of the financial-profile application's calculation core:
the compounding utilities (lib/utils/calculations.ts and lib/utils.ts), the
portfolio aggregator, the asset-allocation classifier, the client context
builder (lib/ai/context.ts) and the AI chat route (app/api/ai/chat/route.ts).
Monetary amounts and rates are modelled as exact rationals; the one real-power
computation (the normalized overall growth rate and the growth-rate inverse)
is modelled with Real.rpow.
-/

namespace FinProfile

/-- Risk tiers used by the allocation classifier. -/
inductive RiskLevel where
  | low
  | medium
  | high
deriving DecidableEq

/-- Asset row (types/database.ts; assets table: current_value DECIMAL,
growth_rate DECIMAL annual percentage, projection_years INTEGER). -/
structure Asset where
  asset_type : String
  current_value : ℚ
  growth_rate : ℚ
  projection_years : ℕ
deriving DecidableEq

namespace Calculations

/-- lib/utils/calculations.ts calculateFutureValue:
currentValue * Math.pow(1 + growthRate / 100, years). -/
def calculateFutureValue (currentValue growthRate : ℚ) (years : ℕ) : ℚ :=
  currentValue * (1 + growthRate / 100) ^ years

end Calculations

namespace Utils

/-- lib/utils.ts calculateFutureValue:
presentValue * Math.pow(1 + rate, years). -/
noncomputable def calculateFutureValue (presentValue rate years : ℝ) : ℝ :=
  presentValue * (1 + rate) ^ years

/-- lib/utils.ts calculateGrowthRate:
Math.pow(futureValue / currentValue, 1 / years) - 1. -/
noncomputable def calculateGrowthRate (currentValue futureValue years : ℝ) : ℝ :=
  (futureValue / currentValue) ^ (1 / years) - 1

end Utils

/-- Return shape of calculatePortfolioTotals. -/
structure PortfolioTotals where
  totalCurrentValue : ℚ
  totalFutureValue : ℚ
  totalProjectedGrowth : ℚ
  overallGrowthRate : ℝ

/-- lib/utils/calculations.ts calculatePortfolioTotals. -/
noncomputable def calculatePortfolioTotals (assets : List Asset) : PortfolioTotals :=
  let totalCurrentValue := assets.foldl (fun sum asset => sum + asset.current_value) 0
  let totalFutureValue := assets.foldl
    (fun sum asset =>
      sum + Calculations.calculateFutureValue asset.current_value asset.growth_rate
        asset.projection_years) 0
  let totalProjectedGrowth := totalFutureValue - totalCurrentValue
  { totalCurrentValue := totalCurrentValue
    totalFutureValue := totalFutureValue
    totalProjectedGrowth := totalProjectedGrowth
    overallGrowthRate :=
      if 0 < totalCurrentValue then
        (((totalFutureValue / totalCurrentValue : ℚ) : ℝ) ^ ((1 : ℝ) / 10) - 1) * 100
      else 0 }

/-- ContextBuilder.getCategoryRiskLevel: static lookup, defaulting to medium. -/
def getCategoryRiskLevel (category : String) : RiskLevel :=
  if category = "residence" then .medium
  else if category = "rrsp" then .medium
  else if category = "tfsa" then .medium
  else if category = "savings" then .low
  else if category = "investment" then .high
  else .medium

/-- One per-category accumulator entry of the allocation reduce
(the JS object maps a category key to value and count). -/
structure AllocAcc where
  category : String
  value : ℚ
  count : ℕ
deriving DecidableEq

/-- One step of the allocation reduce: create the category bucket when
missing, then add the asset's current value and bump the count. -/
def allocInsert (acc : List AllocAcc) (asset : Asset) : List AllocAcc :=
  if ∃ e ∈ acc, e.category = asset.asset_type then
    acc.map (fun e =>
      if e.category = asset.asset_type then
        { e with value := e.value + asset.current_value, count := e.count + 1 }
      else e)
  else
    acc ++ [{ category := asset.asset_type, value := asset.current_value, count := 1 }]

/-- Output entry of the allocation classifier (AssetAllocation in types/ai.ts). -/
structure AssetAllocation where
  category : String
  value : ℚ
  percentage : ℚ
  risk_level : RiskLevel
deriving DecidableEq

/-- ContextBuilder.calculateAssetAllocation: group assets by category,
compute each group's value and percentage share, tag the risk tier. -/
def calculateAssetAllocation (assets : List Asset) : List AssetAllocation :=
  let totalValue := assets.foldl (fun sum asset => sum + asset.current_value) 0
  let allocation := assets.foldl allocInsert []
  allocation.map (fun e =>
    { category := e.category
      value := e.value
      percentage := if 0 < totalValue then e.value / totalValue * 100 else 0
      risk_level := getCategoryRiskLevel e.category })

/-- Calendar date as seen through getFullYear / getMonth / getDate. -/
structure SimpleDate where
  year : ℤ
  month : ℤ
  day : ℤ
deriving DecidableEq

/-- ContextBuilder.calculateAge, with the ambient clock made explicit as the
today argument. -/
def calculateAge (today birth : SimpleDate) : ℤ :=
  let age := today.year - birth.year
  let monthDiff := today.month - birth.month
  if monthDiff < 0 ∨ (monthDiff = 0 ∧ today.day < birth.day) then age - 1 else age

/-- Income source row (income_sources table: monthly_amount DECIMAL nullable,
is_active BOOLEAN). -/
structure IncomeSource where
  monthly_amount : Option ℚ
  is_active : Bool
deriving DecidableEq

/-- Expense row (expenses table: monthly_amount DECIMAL). -/
structure Expense where
  monthly_amount : Option ℚ
deriving DecidableEq

/-- Financial goal row: only the name reaches the context. -/
structure FinancialGoal where
  name : String
deriving DecidableEq

/-- Client row joined with its nested collections, as returned by the
builder's select on the clients table. -/
structure ClientRecord where
  id : String
  advisor_id : String
  name : String
  date_of_birth : Option SimpleDate
  risk_tolerance : String
  annual_income : Option ℚ
  assets : List Asset
  income_sources : List IncomeSource
  expenses : List Expense
  financial_goals : List FinancialGoal
deriving DecidableEq

/-- The client block of ClientContext (types/ai.ts). -/
structure ClientInfo where
  id : String
  name : String
  age : Option ℤ
  risk_tolerance : String
  annual_income : Option ℚ
  financial_goals : List String
deriving DecidableEq

/-- The portfolio block of ClientContext (types/ai.ts). -/
structure PortfolioInfo where
  total_assets : ℚ
  total_liabilities : ℚ
  net_worth : ℚ
  asset_allocation : List AssetAllocation
  monthly_cash_flow : ℚ
deriving DecidableEq

/-- ClientContext (types/ai.ts). -/
structure ClientContext where
  client : ClientInfo
  portfolio : PortfolioInfo
  assets : List Asset
deriving DecidableEq

/-- The pure body of ContextBuilder.buildClientContext, applied to the
fetched client row. -/
noncomputable def buildContextFromClient (today : SimpleDate) (client : ClientRecord) :
    ClientContext :=
  let portfolioTotals := calculatePortfolioTotals client.assets
  let assetAllocation := calculateAssetAllocation client.assets
  let monthlyIncome :=
    client.income_sources.foldl (fun sum income => sum + income.monthly_amount.getD 0) 0
  let monthlyExpenses :=
    client.expenses.foldl (fun sum expense => sum + expense.monthly_amount.getD 0) 0
  { client :=
      { id := client.id
        name := client.name
        age := client.date_of_birth.map (fun dob => calculateAge today dob)
        risk_tolerance := client.risk_tolerance
        annual_income := client.annual_income
        financial_goals := client.financial_goals.map (fun g => g.name) }
    portfolio :=
      { total_assets := portfolioTotals.totalCurrentValue
        total_liabilities := 0
        net_worth := portfolioTotals.totalCurrentValue
        asset_allocation := assetAllocation
        monthly_cash_flow := monthlyIncome - monthlyExpenses }
    assets := client.assets }

/-- Failure of the context builder (the thrown Client-not-found error). -/
inductive ContextError where
  | clientNotFound
deriving DecidableEq

/-- The builder's point query on the clients table: .eq(id, clientId).single()
under the row-level-security policy advisor_id = auth.uid(), so only a row
owned by the requesting advisor can come back. -/
def fetchClient (db : List ClientRecord) (advisorId clientId : String) :
    Option ClientRecord :=
  db.find? (fun c => c.id = clientId ∧ c.advisor_id = advisorId)

/-- ContextBuilder.buildClientContext: fetch the owned client row, fail with
the not-found condition when no row comes back, otherwise build the context. -/
noncomputable def buildClientContext (db : List ClientRecord) (today : SimpleDate)
    (advisorId clientId : String) : Except ContextError ClientContext :=
  match fetchClient db advisorId clientId with
  | none => .error .clientNotFound
  | some client => .ok (buildContextFromClient today client)

/-- Failure modes surfaced by the chat route. -/
inductive ChatError where
  | unauthorized
  | badRequest
  | internalError
deriving DecidableEq

/-- Outcome of the chat route, recording whether the text-generation
call was performed. -/
structure ChatResult where
  llmCalled : Bool
  response : Except ChatError String

/-- app/api/ai/chat/route.ts POST: authenticate, validate inputs, build the
client context, and only then invoke the text-generation service; a builder
failure is caught and surfaced as a generic processing error. -/
noncomputable def chatPOST (db : List ClientRecord) (today : SimpleDate)
    (auth : Option String) (message clientId : String)
    (llm : ClientContext → String → String) : ChatResult :=
  match auth with
  | none => { llmCalled := false, response := .error .unauthorized }
  | some advisorId =>
    if message = "" ∨ clientId = "" then
      { llmCalled := false, response := .error .badRequest }
    else
      match buildClientContext db today advisorId clientId with
      | .error _ => { llmCalled := false, response := .error .internalError }
      | .ok context => { llmCalled := true, response := .ok (llm context message) }

/-- Modelled from the spec: the net monthly cash flow as §4.4(d) states it,
summing only the monthly amounts of active income sources and subtracting
the expenses' monthly amounts. Used only to compare the builder against the
spec's wording. -/
def specActiveNetMonthlyCashFlow (incomes : List IncomeSource)
    (expenses : List Expense) : ℚ :=
  ((incomes.filter (fun i => i.is_active)).map (fun i => i.monthly_amount.getD 0)).sum -
    (expenses.map (fun e => e.monthly_amount.getD 0)).sum

/-! ### Helper lemmas -/

theorem foldl_add_eq_sum {α : Type} (f : α → ℚ) (l : List α) (init : ℚ) :
    l.foldl (fun s a => s + f a) init = init + (l.map f).sum := by
  induction l generalizing init with
  | nil => simp
  | cons a t ih => simp [ih, add_assoc]

theorem allocUpdate_keys (acc : List AllocAcc) (t : String) (v : ℚ) :
    ((acc.map (fun e =>
        if e.category = t then { e with value := e.value + v, count := e.count + 1 }
        else e)).map (fun e => e.category)) = acc.map (fun e => e.category) := by
  induction acc with
  | nil => rfl
  | cons e rest ih => by_cases h : e.category = t <;> simp [h, ih]

theorem allocUpdate_id (t : String) (v : ℚ) (acc : List AllocAcc)
    (h : ∀ e ∈ acc, e.category ≠ t) :
    acc.map (fun e =>
        if e.category = t then { e with value := e.value + v, count := e.count + 1 }
        else e) = acc := by
  induction acc with
  | nil => rfl
  | cons e rest ih =>
    simp only [List.map_cons, if_neg (h e (List.mem_cons_self e rest))]
    rw [ih (fun x hx => h x (List.mem_cons_of_mem e hx))]

theorem allocUpdate_valSum (t : String) (v : ℚ) (acc : List AllocAcc)
    (hnd : (acc.map (fun e => e.category)).Nodup)
    (hex : ∃ e ∈ acc, e.category = t) :
    ((acc.map (fun e =>
        if e.category = t then { e with value := e.value + v, count := e.count + 1 }
        else e)).map (fun e => e.value)).sum
      = (acc.map (fun e => e.value)).sum + v := by
  induction acc with
  | nil => simp at hex
  | cons e rest ih =>
    simp only [List.map_cons, List.nodup_cons] at hnd
    by_cases h : e.category = t
    · have hrest : ∀ x ∈ rest, x.category ≠ t := by
        intro x hx hxt
        exact hnd.1 (h ▸ hxt ▸ List.mem_map.mpr ⟨x, hx, rfl⟩)
      simp only [List.map_cons, if_pos h, allocUpdate_id t v rest hrest, List.sum_cons]
      ring
    · have hex2 : ∃ x ∈ rest, x.category = t := by
        rcases hex with ⟨x, hx, hxt⟩
        rcases List.mem_cons.mp hx with rfl | hx2
        · exact absurd hxt h
        · exact ⟨x, hx2, hxt⟩
      simp only [List.map_cons, if_neg h, List.sum_cons, ih hnd.2 hex2]
      ring

theorem allocInsert_keys_nodup (acc : List AllocAcc) (a : Asset)
    (h : (acc.map (fun e => e.category)).Nodup) :
    ((allocInsert acc a).map (fun e => e.category)).Nodup := by
  unfold allocInsert
  split_ifs with hex
  · rw [allocUpdate_keys]
    exact h
  · have hnot : a.asset_type ∉ acc.map (fun e => e.category) := by
      intro hmem
      rcases List.mem_map.mp hmem with ⟨e, he, hcat⟩
      exact hex ⟨e, he, hcat⟩
    simp [List.nodup_append, h, hnot, List.disjoint_singleton]

theorem allocInsert_valSum (acc : List AllocAcc) (a : Asset)
    (h : (acc.map (fun e => e.category)).Nodup) :
    ((allocInsert acc a).map (fun e => e.value)).sum
      = (acc.map (fun e => e.value)).sum + a.current_value := by
  unfold allocInsert
  split_ifs with hex
  · exact allocUpdate_valSum a.asset_type a.current_value acc h hex
  · simp

theorem allocFold_valSum (assets : List Asset) :
    ∀ acc : List AllocAcc, (acc.map (fun e => e.category)).Nodup →
      (((assets.foldl allocInsert acc).map (fun e => e.value)).sum)
        = (acc.map (fun e => e.value)).sum + (assets.map (fun a => a.current_value)).sum := by
  induction assets with
  | nil => simp
  | cons a t ih =>
    intro acc h
    simp only [List.foldl_cons, List.map_cons, List.sum_cons]
    rw [ih _ (allocInsert_keys_nodup acc a h), allocInsert_valSum acc a h]
    ring

/-! ### Claim C1 -/

/-- Claim C1, counterexample: the compounding function used by the portfolio
aggregator (lib/utils/calculations.ts calculateFutureValue) does not return
P·(1+r)^n for a fractional rate r: at P = 100, r = 1/20, n = 1 it returns
100·(1 + (1/20)/100) = 2001/20, not 105, because it divides the rate by 100. -/
theorem compounding_fractional_counterexample :
    (0 : ℚ) ≤ 100 ∧ (-1 : ℚ) < 1 / 20 ∧
      Calculations.calculateFutureValue 100 (1 / 20) 1 ≠ 100 * (1 + 1 / 20) ^ (1 : ℕ) := by
  refine ⟨by norm_num, by norm_num, ?_⟩
  norm_num [Calculations.calculateFutureValue]

/-- Claim C1 (amended): for P ≥ 0, r > -1 and integer n ≥ 0, the
lib/utils/calculations.ts compounding function returns P·(1 + r/100)^n — it
treats the rate as a percentage — while the lib/utils.ts variant returns
P·(1+r)^n with the rate taken as a fraction. -/
theorem compounding_formulas :
    (∀ (P r : ℚ) (n : ℕ), 0 ≤ P → -1 < r →
      Calculations.calculateFutureValue P r n = P * (1 + r / 100) ^ n) ∧
    (∀ (P r : ℝ) (n : ℕ), 0 ≤ P → -1 < r →
      Utils.calculateFutureValue P r n = P * (1 + r) ^ n) := by
  constructor
  · intro P r n _ _
    rfl
  · intro P r n _ _
    simp [Utils.calculateFutureValue, Real.rpow_natCast]

/-- Claim C1 witness: both amended formulas evaluated at concrete inputs. -/
theorem compounding_formulas_witness :
    ((0 : ℚ) ≤ 100 ∧ (-1 : ℚ) < 5 ∧
      Calculations.calculateFutureValue 100 5 2 = 100 * (1 + 5 / 100) ^ (2 : ℕ)) ∧
    ((0 : ℝ) ≤ 100 ∧ (-1 : ℝ) < 1 / 20 ∧
      Utils.calculateFutureValue 100 (1 / 20) (2 : ℕ) = 100 * (1 + 1 / 20) ^ (2 : ℕ)) :=
  ⟨⟨by norm_num, by norm_num, compounding_formulas.1 100 5 2 (by norm_num) (by norm_num)⟩,
   ⟨by norm_num, by norm_num,
     compounding_formulas.2 100 (1 / 20) 2 (by norm_num) (by norm_num)⟩⟩

/-! ### Claim C3 -/

/-- Claim C3: the aggregator's totalCurrentValue is the sum of the assets'
current values, totalFutureValue is the sum of the per-asset future values,
each compounded on the asset's own horizon, totalProjectedGrowth is their
difference, and the empty collection yields all-zero totals. -/
theorem portfolioTotals_sums (assets : List Asset) :
    (calculatePortfolioTotals assets).totalCurrentValue
        = (assets.map (fun a => a.current_value)).sum ∧
    (calculatePortfolioTotals assets).totalFutureValue
        = (assets.map (fun a =>
            Calculations.calculateFutureValue a.current_value a.growth_rate
              a.projection_years)).sum ∧
    (calculatePortfolioTotals assets).totalProjectedGrowth
        = (calculatePortfolioTotals assets).totalFutureValue
            - (calculatePortfolioTotals assets).totalCurrentValue ∧
    (calculatePortfolioTotals []).totalCurrentValue = 0 ∧
    (calculatePortfolioTotals []).totalFutureValue = 0 ∧
    (calculatePortfolioTotals []).totalProjectedGrowth = 0 := by
  refine ⟨?_, ?_, rfl, ?_, ?_, ?_⟩
  · simp [calculatePortfolioTotals, foldl_add_eq_sum]
  · simp [calculatePortfolioTotals, foldl_add_eq_sum]
  · norm_num [calculatePortfolioTotals]
  · norm_num [calculatePortfolioTotals]
  · norm_num [calculatePortfolioTotals]

/-! ### Claim C7 -/

/-- Claim C7: the category→risk-tier table maps savings to low; residence,
rrsp and tfsa to medium; investment to high; and every other category string
defaults to medium. -/
theorem riskLevel_table :
    getCategoryRiskLevel "savings" = RiskLevel.low ∧
    getCategoryRiskLevel "residence" = RiskLevel.medium ∧
    getCategoryRiskLevel "rrsp" = RiskLevel.medium ∧
    getCategoryRiskLevel "tfsa" = RiskLevel.medium ∧
    getCategoryRiskLevel "investment" = RiskLevel.high ∧
    ∀ category : String,
      category ∉ ["residence", "rrsp", "tfsa", "savings", "investment"] →
        getCategoryRiskLevel category = RiskLevel.medium := by
  refine ⟨by decide, by decide, by decide, by decide, by decide, ?_⟩
  intro category h
  simp only [List.mem_cons, List.not_mem_nil, or_false, not_or] at h
  obtain ⟨h1, h2, h3, h4, h5⟩ := h
  simp [getCategoryRiskLevel, h1, h2, h3, h4, h5]

/-- Claim C7 witness: a category absent from the table maps to medium. -/
theorem riskLevel_table_witness :
    "crypto" ∉ ["residence", "rrsp", "tfsa", "savings", "investment"] ∧
    getCategoryRiskLevel "crypto" = RiskLevel.medium :=
  ⟨by decide, riskLevel_table.2.2.2.2.2 "crypto" (by decide)⟩

/-! ### Claim C8 -/

/-- Claim C8: for a birth date not after today, calculateAge returns the
difference of the calendar years, decremented by one exactly when the birth
month/day has not yet been reached in the current year. -/
theorem calculateAge_spec (today birth : SimpleDate)
    (h : birth.year < today.year ∨
      (birth.year = today.year ∧
        (birth.month < today.month ∨
          (birth.month = today.month ∧ birth.day ≤ today.day)))) :
    calculateAge today birth =
      if today.month < birth.month ∨ (today.month = birth.month ∧ today.day < birth.day)
      then today.year - birth.year - 1
      else today.year - birth.year := by
  have hiff : (today.month - birth.month < 0 ∨
      (today.month - birth.month = 0 ∧ today.day < birth.day)) ↔
      (today.month < birth.month ∨ (today.month = birth.month ∧ today.day < birth.day)) := by
    omega
  simp only [calculateAge]
  rw [if_congr hiff rfl rfl]

/-- Claim C8 witness: birthday not yet reached in the current year. -/
theorem calculateAge_spec_witness :
    ((1990 : ℤ) < 2026 ∨
      ((1990 : ℤ) = 2026 ∧ ((10 : ℤ) < 9 ∨ ((10 : ℤ) = 9 ∧ (5 : ℤ) ≤ 11)))) ∧
    calculateAge ⟨2026, 9, 11⟩ ⟨1990, 10, 5⟩ =
      (if (9 : ℤ) < 10 ∨ ((9 : ℤ) = 10 ∧ (11 : ℤ) < 5)
       then 2026 - 1990 - 1 else 2026 - 1990) :=
  ⟨Or.inl (by norm_num),
    calculateAge_spec ⟨2026, 9, 11⟩ ⟨1990, 10, 5⟩ (Or.inl (by norm_num))⟩

/-! ### Claim C9 -/

/-- Claim C9: the lib/utils.ts pair round-trips: for currentValue > 0,
r > -1 and years > 0, calculateGrowthRate applied to the compounded future
value recovers the rate r. -/
theorem growthRate_roundtrip (cv r years : ℝ)
    (hcv : 0 < cv) (hr : -1 < r) (hy : 0 < years) :
    Utils.calculateGrowthRate cv (Utils.calculateFutureValue cv r years) years = r := by
  unfold Utils.calculateGrowthRate Utils.calculateFutureValue
  rw [mul_div_cancel_left₀ _ (ne_of_gt hcv)]
  rw [← Real.rpow_mul (le_of_lt (by linarith : (0 : ℝ) < 1 + r))]
  rw [mul_one_div, div_self (ne_of_gt hy), Real.rpow_one]
  ring

/-- Claim C9 witness: round trip at currentValue 1, rate 0, one year. -/
theorem growthRate_roundtrip_witness :
    (0 : ℝ) < 1 ∧ (-1 : ℝ) < 0 ∧ (0 : ℝ) < 1 ∧
    Utils.calculateGrowthRate 1 (Utils.calculateFutureValue 1 0 1) 1 = 0 :=
  ⟨by norm_num, by norm_num, by norm_num,
    growthRate_roundtrip 1 0 1 (by norm_num) (by norm_num) (by norm_num)⟩

/-! ### Claim C2 -/

theorem rpow_1024_tenth : (1024 : ℝ) ^ ((1 : ℝ) / 10) = 2 := by
  rw [show (1024 : ℝ) = 2 ^ (10 : ℕ) by norm_num, ← Real.rpow_natCast 2 10,
    ← Real.rpow_mul (by norm_num : (0 : ℝ) ≤ 2)]
  rw [show ((10 : ℕ) : ℝ) * ((1 : ℝ) / 10) = 1 by norm_num, Real.rpow_one]

/-- Claim C2, counterexample: for the single asset (value 1, growth rate 100,
10 years) the aggregator's totals are tCV = 1 and tFV = 1024, and it returns
overallGrowthRate (1024^(1/10) − 1)·100 = 100, not (tFV/tCV)^(1/10) − 1 = 1:
the rate is scaled to a percentage. -/
theorem overallGrowthRate_counterexample :
    (calculatePortfolioTotals [⟨"investment", 1, 100, 10⟩]).overallGrowthRate ≠
      (((calculatePortfolioTotals [⟨"investment", 1, 100, 10⟩]).totalFutureValue /
          (calculatePortfolioTotals [⟨"investment", 1, 100, 10⟩]).totalCurrentValue : ℚ) : ℝ)
        ^ ((1 : ℝ) / 10) - 1 := by
  have h1 : (calculatePortfolioTotals [⟨"investment", 1, 100, 10⟩]).totalCurrentValue = 1 := by
    norm_num [calculatePortfolioTotals]
  have h2 : (calculatePortfolioTotals [⟨"investment", 1, 100, 10⟩]).totalFutureValue = 1024 := by
    norm_num [calculatePortfolioTotals, Calculations.calculateFutureValue]
  have h3 : (calculatePortfolioTotals [⟨"investment", 1, 100, 10⟩]).overallGrowthRate
      = 100 := by
    norm_num [calculatePortfolioTotals, Calculations.calculateFutureValue]
    rw [rpow_1024_tenth]
    norm_num
  rw [h1, h2, h3, show ((1024 / 1 : ℚ) : ℝ) = 1024 by norm_num, rpow_1024_tenth]
  norm_num

/-- Claim C2 (amended): when totalCurrentValue > 0 the aggregator returns
overallGrowthRate = ((totalFutureValue/totalCurrentValue)^(1/10) − 1)·100 —
the normalized rate expressed as a percentage, with the fixed horizon
N = 10 — and 0 when totalCurrentValue = 0, so the ratio is never formed on a
zero denominator. -/
theorem overallGrowthRate_formula (assets : List Asset) :
    (0 < (calculatePortfolioTotals assets).totalCurrentValue →
      (calculatePortfolioTotals assets).overallGrowthRate =
        ((((calculatePortfolioTotals assets).totalFutureValue /
            (calculatePortfolioTotals assets).totalCurrentValue : ℚ) : ℝ)
            ^ ((1 : ℝ) / 10) - 1) * 100) ∧
    ((calculatePortfolioTotals assets).totalCurrentValue = 0 →
      (calculatePortfolioTotals assets).overallGrowthRate = 0) := by
  constructor
  · intro h
    simp only [calculatePortfolioTotals] at h ⊢
    rw [if_pos h]
  · intro h
    simp only [calculatePortfolioTotals] at h ⊢
    rw [if_neg (by rw [h]; exact lt_irrefl 0)]

/-- Claim C2 witness: the positive branch at a single savings asset of value
100 with zero growth. -/
theorem overallGrowthRate_formula_witness :
    0 < (calculatePortfolioTotals [⟨"savings", 100, 0, 5⟩]).totalCurrentValue ∧
    (calculatePortfolioTotals [⟨"savings", 100, 0, 5⟩]).overallGrowthRate =
      ((((calculatePortfolioTotals [⟨"savings", 100, 0, 5⟩]).totalFutureValue /
          (calculatePortfolioTotals [⟨"savings", 100, 0, 5⟩]).totalCurrentValue : ℚ) : ℝ)
          ^ ((1 : ℝ) / 10) - 1) * 100 :=
  ⟨by norm_num [calculatePortfolioTotals],
   (overallGrowthRate_formula [⟨"savings", 100, 0, 5⟩]).1
     (by norm_num [calculatePortfolioTotals])⟩

/-! ### Claim C6 -/

/-- Claim C6: the allocation percentages over all categories of one client
sum to exactly 100 whenever the total current value is positive, and every
percentage is 0 — so they sum to 0 — when the total current value is 0. -/
theorem allocation_percentages_sum (assets : List Asset) :
    (0 < (assets.map (fun a => a.current_value)).sum →
      ((calculateAssetAllocation assets).map (fun e => e.percentage)).sum = 100) ∧
    ((assets.map (fun a => a.current_value)).sum = 0 →
      (∀ e ∈ calculateAssetAllocation assets, e.percentage = 0) ∧
      ((calculateAssetAllocation assets).map (fun e => e.percentage)).sum = 0) := by
  have htv : assets.foldl (fun sum asset => sum + asset.current_value) 0
      = (assets.map (fun a => a.current_value)).sum := by
    simpa using foldl_add_eq_sum (fun a => a.current_value) assets 0
  have hval : ((assets.foldl allocInsert []).map (fun e => e.value)).sum
      = (assets.map (fun a => a.current_value)).sum := by
    simpa using allocFold_valSum assets [] (by simp)
  constructor
  · intro h
    have htvpos : 0 < assets.foldl (fun sum asset => sum + asset.current_value) 0 :=
      htv ▸ h
    have htvne : assets.foldl (fun sum asset => sum + asset.current_value) 0 ≠ 0 :=
      ne_of_gt htvpos
    simp only [calculateAssetAllocation, List.map_map, Function.comp_def]
    simp only [htvpos, if_true]
    rw [show (fun e : AllocAcc =>
          e.value / assets.foldl (fun sum asset => sum + asset.current_value) 0 * 100)
        = (fun e : AllocAcc =>
          e.value * (100 / assets.foldl (fun sum asset => sum + asset.current_value) 0))
      from funext fun e => by ring]
    rw [List.sum_map_mul_right, hval, ← htv]
    field_simp
  · intro h
    have htv0 : assets.foldl (fun sum asset => sum + asset.current_value) 0 = 0 := by
      rw [htv, h]
    constructor
    · intro e he
      simp only [calculateAssetAllocation] at he
      rcases List.mem_map.mp he with ⟨x, hx, rfl⟩
      simp [htv0]
    · simp only [calculateAssetAllocation, List.map_map, Function.comp_def]
      simp [htv0]

/-- Claim C6 witness: two categories of values 60 and 40 give percentages
summing to 100. -/
theorem allocation_percentages_sum_witness :
    (0 : ℚ) < (([⟨"savings", 60, 0, 1⟩, ⟨"investment", 40, 0, 1⟩] : List Asset).map
        (fun a => a.current_value)).sum ∧
    ((calculateAssetAllocation [⟨"savings", 60, 0, 1⟩, ⟨"investment", 40, 0, 1⟩]).map
        (fun e => e.percentage)).sum = 100 :=
  ⟨by norm_num,
   (allocation_percentages_sum [⟨"savings", 60, 0, 1⟩, ⟨"investment", 40, 0, 1⟩]).1
     (by norm_num)⟩

/-! ### Concrete fixtures for the closed witness statements -/

/-- A fixed reference date standing for the ambient clock. -/
def today0 : SimpleDate := ⟨2026, 1, 1⟩

/-- A client whose only income source is inactive. -/
def clientInactiveIncome : ClientRecord :=
  { id := "c1", advisor_id := "a1", name := "X", date_of_birth := none,
    risk_tolerance := "moderate", annual_income := none, assets := [],
    income_sources := [{ monthly_amount := some 100, is_active := false }],
    expenses := [], financial_goals := [] }

/-- A client owned by advisor a1 with a small portfolio. -/
def clientOwned : ClientRecord :=
  { id := "c2", advisor_id := "a1", name := "Y", date_of_birth := some ⟨1980, 5, 20⟩,
    risk_tolerance := "aggressive", annual_income := some 120000,
    assets := [⟨"savings", 250, 2, 3⟩],
    income_sources := [{ monthly_amount := some 5000, is_active := true }],
    expenses := [{ monthly_amount := some 3000 }],
    financial_goals := [⟨"retire"⟩] }

/-- A client whose id exists but under a different advisor (a2). -/
def clientOtherAdvisor : ClientRecord :=
  { id := "c1", advisor_id := "a2", name := "Z", date_of_birth := none,
    risk_tolerance := "moderate", annual_income := none, assets := [],
    income_sources := [], expenses := [], financial_goals := [] }

/-- A fixed stand-in for the text-generation service. -/
def llm0 : ClientContext → String → String := fun _ _ => "ok"

/-! ### Claim C4 -/

/-- Claim C4, counterexample: for a client whose only income source is
inactive with monthly amount 100 and with no expenses, the builder reports a
monthly cash flow of 100, while the spec's active-only sum minus expenses
is 0: the activity flag is ignored. -/
theorem monthlyCashFlow_counterexample :
    (buildContextFromClient today0 clientInactiveIncome).portfolio.monthly_cash_flow
      ≠ specActiveNetMonthlyCashFlow clientInactiveIncome.income_sources
          clientInactiveIncome.expenses := by
  norm_num [buildContextFromClient, specActiveNetMonthlyCashFlow, clientInactiveIncome]

/-- Claim C4 (amended): the builder's monthly cash flow is the sum of the
monthly amounts of ALL income sources — the activity flag is not consulted —
minus the sum of the expenses' monthly amounts. -/
theorem monthlyCashFlow_sums (db : List ClientRecord) (today : SimpleDate)
    (advisorId clientId : String) (client : ClientRecord)
    (hf : fetchClient db advisorId clientId = some client) :
    buildClientContext db today advisorId clientId
        = .ok (buildContextFromClient today client) ∧
    (buildContextFromClient today client).portfolio.monthly_cash_flow
        = (client.income_sources.map (fun i => i.monthly_amount.getD 0)).sum
            - (client.expenses.map (fun e => e.monthly_amount.getD 0)).sum := by
  constructor
  · simp [buildClientContext, hf]
  · simp [buildContextFromClient, foldl_add_eq_sum]

/-- Claim C4 witness: the amended cash-flow formula at a concrete client. -/
theorem monthlyCashFlow_sums_witness :
    fetchClient [clientInactiveIncome] "a1" "c1" = some clientInactiveIncome ∧
    buildClientContext [clientInactiveIncome] today0 "a1" "c1"
        = .ok (buildContextFromClient today0 clientInactiveIncome) ∧
    (buildContextFromClient today0 clientInactiveIncome).portfolio.monthly_cash_flow
        = (clientInactiveIncome.income_sources.map (fun i => i.monthly_amount.getD 0)).sum
            - (clientInactiveIncome.expenses.map (fun e => e.monthly_amount.getD 0)).sum :=
  ⟨rfl,
   (monthlyCashFlow_sums [clientInactiveIncome] today0 "a1" "c1" clientInactiveIncome rfl).1,
   (monthlyCashFlow_sums [clientInactiveIncome] today0 "a1" "c1" clientInactiveIncome rfl).2⟩

/-! ### Claim C5 -/

/-- Claim C5: when no clients row owned by the requesting advisor matches the
requested id, the builder fails with the not-found condition; every row in
the store with that id then belongs to a different advisor — the
owned-by-another-advisor case is covered — and the chat route never performs
the language-model call. -/
theorem notFound_skips_llm (db : List ClientRecord) (today : SimpleDate)
    (advisorId clientId : String)
    (h : fetchClient db advisorId clientId = none) :
    buildClientContext db today advisorId clientId = .error .clientNotFound ∧
    (∀ c ∈ db, c.id = clientId → c.advisor_id ≠ advisorId) ∧
    ∀ (message : String) (llm : ClientContext → String → String),
      (chatPOST db today (some advisorId) message clientId llm).llmCalled = false := by
  refine ⟨by simp [buildClientContext, h], ?_, ?_⟩
  · intro c hc hid hadv
    have hall := List.find?_eq_none.mp h c hc
    exact hall (by simp [fetchClient, hid, hadv])
  · intro message llm
    by_cases hm : message = "" ∨ clientId = ""
    · simp [chatPOST, hm]
    · simp [chatPOST, hm, buildClientContext, h]

/-- Claim C5 witness: a request by advisor a1 for an id that exists only
under advisor a2 yields not-found and no language-model call. -/
theorem notFound_skips_llm_witness :
    fetchClient [clientOtherAdvisor] "a1" "c1" = none ∧
    buildClientContext [clientOtherAdvisor] today0 "a1" "c1"
        = .error .clientNotFound ∧
    clientOtherAdvisor.advisor_id ≠ "a1" ∧
    (chatPOST [clientOtherAdvisor] today0 (some "a1") "hello" "c1" llm0).llmCalled
        = false :=
  ⟨rfl,
   (notFound_skips_llm [clientOtherAdvisor] today0 "a1" "c1" rfl).1,
   (notFound_skips_llm [clientOtherAdvisor] today0 "a1" "c1" rfl).2.1
     clientOtherAdvisor (List.mem_singleton.mpr rfl) rfl,
   (notFound_skips_llm [clientOtherAdvisor] today0 "a1" "c1" rfl).2.2 "hello" llm0⟩

/-! ### Claim C10 -/

/-- Claim C10: every successfully built context reports total_liabilities 0
and net_worth equal to total_assets, which is the aggregator's
totalCurrentValue over the fetched client's assets: no liabilities are
fetched or subtracted. -/
theorem contextPortfolio_liabilities (db : List ClientRecord) (today : SimpleDate)
    (advisorId clientId : String) (client : ClientRecord)
    (hf : fetchClient db advisorId clientId = some client) :
    buildClientContext db today advisorId clientId
        = .ok (buildContextFromClient today client) ∧
    (buildContextFromClient today client).portfolio.total_liabilities = 0 ∧
    (buildContextFromClient today client).portfolio.net_worth
        = (buildContextFromClient today client).portfolio.total_assets ∧
    (buildContextFromClient today client).portfolio.total_assets
        = (calculatePortfolioTotals client.assets).totalCurrentValue := by
  exact ⟨by simp [buildClientContext, hf], rfl, rfl, rfl⟩

/-- Claim C10 witness: the liabilities/net-worth invariants at a concrete
client owned by the requesting advisor. -/
theorem contextPortfolio_liabilities_witness :
    fetchClient [clientOwned] "a1" "c2" = some clientOwned ∧
    buildClientContext [clientOwned] today0 "a1" "c2"
        = .ok (buildContextFromClient today0 clientOwned) ∧
    (buildContextFromClient today0 clientOwned).portfolio.total_liabilities = 0 ∧
    (buildContextFromClient today0 clientOwned).portfolio.net_worth
        = (buildContextFromClient today0 clientOwned).portfolio.total_assets ∧
    (buildContextFromClient today0 clientOwned).portfolio.total_assets
        = (calculatePortfolioTotals clientOwned.assets).totalCurrentValue :=
  ⟨rfl,
   (contextPortfolio_liabilities [clientOwned] today0 "a1" "c2" clientOwned rfl).1,
   (contextPortfolio_liabilities [clientOwned] today0 "a1" "c2" clientOwned rfl).2.1,
   (contextPortfolio_liabilities [clientOwned] today0 "a1" "c2" clientOwned rfl).2.2.1,
   (contextPortfolio_liabilities [clientOwned] today0 "a1" "c2" clientOwned rfl).2.2.2⟩

end FinProfile
